import Mathlib

/-!
Verification of the NotionMCP server core (`notionMCP_server.py`) against its
natural-language specification.

A Python string is modelled as a `List Char` (a sequence of code points), so
that slicing, prefix tests and stripping are faithful to Python semantics.
Block records (the stringly-typed Notion wire dictionaries built by the
source) are modelled as a tagged inductive `Block`, one constructor per
`"type"` tag, each carrying the `rich_text` content the source puts in it.
The remote Notion client is modelled as an environment of call outcomes, and
every workflow function returns its result together with the list of gateway
calls it issued (each tagged with whether that call raised).
-/

/-- Model of the Python whitespace test used by `str.strip`. -/
def pyIsSpace (c : Char) : Bool :=
  c = ' ' || c = '\t' || c = '\n' || c = '\r' || c.toNat = 11 || c.toNat = 12

/-- Model of Python `str.strip()`: drop whitespace at both ends. -/
def pyStrip (s : List Char) : List Char :=
  ((s.dropWhile pyIsSpace).reverse.dropWhile pyIsSpace).reverse

/-- Model of Python `content.split('\n')`: split on newline, keeping empty
pieces, with `[[]]` for the empty string. -/
def pySplitNL : List Char → List (List Char)
  | [] => [[]]
  | '\n' :: cs => [] :: pySplitNL cs
  | c :: cs =>
    match pySplitNL cs with
    | l :: ls => (c :: l) :: ls
    | [] => [[c]]

/-- Model of Python newline `join(lines)`. -/
def pyJoinNL (ls : List (List Char)) : List Char :=
  List.intercalate ['\n'] ls

/-- Model of Python `s.find(pat)`: index of the first occurrence of `pat` in
`s`, or `none` where Python returns `-1`. -/
def pyFind (s pat : List Char) : Option Nat :=
  match s with
  | [] => if pat.isPrefixOf ([] : List Char) then some 0 else none
  | c :: cs =>
    if pat.isPrefixOf (c :: cs) then some 0
    else (pyFind cs pat).map (fun n => n + 1)

/-- Model of Python `s.lower()` on the ASCII titles this server compares. -/
def pyLowerStr (s : String) : String :=
  String.mk (s.toList.map Char.toLower)

/-- Model of Python `page_id.replace('-', '')`: remove every dash. -/
def pyReplaceDash (s : List Char) : List Char :=
  s.filter (fun c => !(c = '-'))

/-- Marker `'```'` opening and closing code fences (source line 272). -/
def backtick3 : List Char := "```".toList

/-- Marker `'# '` for heading 1 (source line 302). -/
def heading1Marker : List Char := "# ".toList

/-- Marker `'## '` for heading 2 (source line 314). -/
def heading2Marker : List Char := "## ".toList

/-- Marker `'### '` for heading 3 (source line 326). -/
def heading3Marker : List Char := "### ".toList

/-- Marker `'- '` for bullet items (source line 338). -/
def bulletDash : List Char := "- ".toList

/-- Marker `'* '` for bullet items (source line 338). -/
def bulletStar : List Char := "* ".toList

/-- Delimiter `'. '` looked up by `line.find('. ')` (source line 352). -/
def dotSpace : List Char := ". ".toList

/-- Tagged model of the Notion block dictionaries built by
`_content_to_notion_blocks`: one constructor per `"type"` tag, carrying the
`rich_text` text content (and the language for code blocks). -/
inductive Block where
  | heading1 (text : String)
  | heading2 (text : String)
  | heading3 (text : String)
  | bulletedListItem (text : String)
  | numberedListItem (text : String)
  | code (language : String) (text : String)
  | paragraph (text : String)
deriving DecidableEq, Repr

/-- Code-block record built at source lines 288-298: an empty declared
language defaults to the literal tag `"plain text"`, and the collected lines
are joined with newlines. -/
def codeBlockOf (language : List Char) (codeContent : List (List Char)) : Block :=
  Block.code
    (String.mk (if language = [] then "plain text".toList else language))
    (String.mk (pyJoinNL codeContent))

/-- Numbered-list guard at source line 350:
`any(line.startswith(f"{j}. ") for j in range(1, 10))`. -/
def isNumberedLine (line : List Char) : Bool :=
  (List.range' 1 9).any (fun j => ((toString j).toList ++ dotSpace).isPrefixOf line)

/-- Declared language of a fence-opening line (source line 274):
`line[3:].strip() if len(line) > 3 else ""`. -/
def fenceLanguage (line : List Char) : List Char :=
  if line.length > 3 then pyStrip (line.drop 3) else []

/-- One pass of the `while i < len(lines)` loop of
`_content_to_notion_blocks` (source lines 263-378).  The first argument is
the loop position: `none` is the ordinary line-classification state, and
`some (language, codeContent)` is the inner fence-collection loop of source
lines 279-281 with its two accumulated locals. -/
def parseLinesAux : Option (List Char × List (List Char)) → List (List Char) → List Block
  | none, [] => []
  | some st, [] => [codeBlockOf st.1 st.2]
  | none, l :: rest =>
    let line := pyStrip l
    if line = [] then parseLinesAux none rest
    else if backtick3.isPrefixOf line then
      parseLinesAux (some (fenceLanguage line, [])) rest
    else if heading1Marker.isPrefixOf line then
      Block.heading1 (String.mk (line.drop 2)) :: parseLinesAux none rest
    else if heading2Marker.isPrefixOf line then
      Block.heading2 (String.mk (line.drop 3)) :: parseLinesAux none rest
    else if heading3Marker.isPrefixOf line then
      Block.heading3 (String.mk (line.drop 4)) :: parseLinesAux none rest
    else if bulletDash.isPrefixOf line || bulletStar.isPrefixOf line then
      Block.bulletedListItem (String.mk (line.drop 2)) :: parseLinesAux none rest
    else if isNumberedLine line then
      match pyFind line dotSpace with
      | some spaceIndex =>
        Block.numberedListItem (String.mk (line.drop (spaceIndex + 2))) ::
          parseLinesAux none rest
      | none => parseLinesAux none rest
    else
      Block.paragraph (String.mk line) :: parseLinesAux none rest
  | some st, l :: rest =>
    if backtick3.isPrefixOf (pyStrip l) then
      codeBlockOf st.1 st.2 :: parseLinesAux none rest
    else
      parseLinesAux (some (st.1, st.2 ++ [l])) rest

/-- Body of `_content_to_notion_blocks` after the line split. -/
def parseLines (ls : List (List Char)) : List Block :=
  parseLinesAux none ls

/-- Model of `_content_to_notion_blocks` (source lines 255-380). -/
def contentToNotionBlocks (content : String) : List Block :=
  parseLines (pySplitNL content.toList)

/-- One page record of a `notion.search` response, keeping the fields the
source reads: the page `id` and the rich-text lists found in the two
conventional title slots `properties["title"]["title"]` and
`properties["Name"]["title"]` (each item reduced to its
`["text"]["content"]`). -/
structure PageResult where
  id : String
  titleProp : List String
  nameProp : List String
deriving DecidableEq, Repr

/-- Title extraction of `_search_notion_page` (source lines 81-85): the first
item of the `title` slot, else the first item of the `Name` slot, else the
empty string. -/
def resolvePageTitle (p : PageResult) : String :=
  match p.titleProp with
  | c :: _ => c
  | [] =>
    match p.nameProp with
    | c :: _ => c
    | [] => ""

/-- Loop of `_search_notion_page` over the search results (source lines
80-90): first page whose resolved title matches case-insensitively wins. -/
def searchFindMatch (title : String) : List PageResult → Option String
  | [] => none
  | p :: rest =>
    if pyLowerStr (resolvePageTitle p) = pyLowerStr title then some p.id
    else searchFindMatch title rest

/-- Model of `_search_notion_page` (source lines 70-98).  The outcome of the
remote `notion.search` call is supplied as an `Except`: the `error` case is
the `except` branch at source lines 95-98, which logs and returns `None`. -/
def searchNotionPage (searchResponse : Except String (List PageResult))
    (title : String) : Option String :=
  match searchResponse with
  | Except.error _ => none
  | Except.ok results => searchFindMatch title results

/-- Response of a successful `notion.pages.create` call; both fields are
optional because the source reads them with `.get` defaults (lines 120-121). -/
structure CreateResponse where
  id : Option String
  url : Option String
deriving DecidableEq, Repr

/-- Gateway calls the workflow can issue against the Notion API. -/
inductive GatewayCall where
  | search (query : String)
  | createPage (parentPageId : Option String) (title : String) (children : List Block)
  | appendChildren (blockId : String) (children : List Block)
  | listChildren (blockId : String)
  | deleteBlock (blockId : String)
deriving DecidableEq, Repr

/-- One issued gateway call, tagged with whether that call raised. -/
structure CallEvent where
  call : GatewayCall
  raised : Bool
deriving DecidableEq, Repr

/-- Whether a modelled remote call raised. -/
def exceptRaised {α : Type} (r : Except String α) : Bool :=
  match r with
  | Except.error _ => true
  | Except.ok _ => false

/-- Model of Python `a or b` on optional strings (`None` and `""` are
falsy), as used for `parent_id or self.notion_parent_id` at source line 103. -/
def pyOrStr (a b : Option String) : Option String :=
  match a with
  | some s => if s = "" then b else some s
  | none => b

/-- Result dictionaries of the `_create/_update/_append` page helpers:
either `{"success": True, "page_id": ..., "page_url": ..., "action": ...}`
or `{"success": False, "error": ...}`. -/
inductive OpResult where
  | ok (pageId : String) (pageUrl : String) (action : String)
  | err (errorMsg : String)
deriving DecidableEq, Repr

/-- Notion's per-request block limit, `batch_size = 100` (source line 187). -/
def batchSize : Nat := 100

/-- Batch loop `for i in range(0, len(blocks), batch_size)` of
`_append_to_notion_page` / `_update_notion_page` (source lines 188-198 and
227-237): the starts `0, 100, 200, ...` below `len(blocks)` are exactly
`ceil(len(blocks) / 100)` many, and iteration `q` appends the slice
`blocks[100*q : 100*q + 100]`, tolerating a raise of that call. -/
def appendBatchEvents (appendRaises : Nat → Bool) (pageId : String)
    (blocks : List Block) : List CallEvent :=
  (List.range ((blocks.length + 99) / 100)).map (fun q =>
    CallEvent.mk
      (GatewayCall.appendChildren pageId ((blocks.drop (q * 100)).take batchSize))
      (appendRaises q))

/-- Synthesized page url `f"https://notion.so/{page_id.replace('-', '')}"`
(source lines 200 and 239). -/
def synthesizedUrl (pageId : String) : String :=
  "https://notion.so/" ++ String.mk (pyReplaceDash pageId.toList)

/-- Model of `_append_to_notion_page` (source lines 216-253): parse the
content, append it batch by batch (each batch failure is caught and the loop
continues), and report success with the synthesized url. -/
def appendToNotionPage (appendRaises : Nat → Bool) (pageId : String)
    (content : String) : OpResult × List CallEvent :=
  let blocks := contentToNotionBlocks content
  let events := if blocks.isEmpty then [] else appendBatchEvents appendRaises pageId blocks
  (OpResult.ok pageId (synthesizedUrl pageId) "appended", events)

/-- Model of `_update_notion_page` (source lines 164-214): despite its name
it only appends, with the same batch loop as `_append_to_notion_page`; the
`title` argument is unused (the title update at lines 171-180 is commented
out in the source). -/
def updateNotionPage (appendRaises : Nat → Bool) (pageId : String)
    (title : String) (content : String) : OpResult × List CallEvent :=
  let blocks := contentToNotionBlocks content
  let events := if blocks.isEmpty then [] else appendBatchEvents appendRaises pageId blocks
  (OpResult.ok pageId (synthesizedUrl pageId) "appended", events)

/-- Model of `_create_notion_page` (source lines 100-135): one
`notion.pages.create` call with the parsed blocks as children; a raise is
caught and converted into an error result. -/
def createNotionPage (createResponse : Except String CreateResponse)
    (notionParentId : Option String) (title : String) (content : String)
    (parentId : Option String) : OpResult × List CallEvent :=
  let parentPageId := pyOrStr parentId notionParentId
  let blocks := contentToNotionBlocks content
  match createResponse with
  | Except.error e =>
    (OpResult.err ("Error creating Notion page: " ++ e),
     [CallEvent.mk (GatewayCall.createPage parentPageId title blocks) true])
  | Except.ok resp =>
    (OpResult.ok (resp.id.getD "No ID available") (resp.url.getD "No URL available")
       "created",
     [CallEvent.mk (GatewayCall.createPage parentPageId title blocks) false])

/-- Inner loop of `_delete_all_blocks` (source lines 147-155): issue one
delete per listed child that has a truthy id, tolerating raises. -/
def deleteLoop (deleteRaises : Nat → Bool) : List (Option String) → Nat → List CallEvent
  | [], _ => []
  | b :: rest, k =>
    match b with
    | some blockId =>
      if blockId = "" then deleteLoop deleteRaises rest (k + 1)
      else CallEvent.mk (GatewayCall.deleteBlock blockId) (deleteRaises k) ::
        deleteLoop deleteRaises rest (k + 1)
    | none => deleteLoop deleteRaises rest (k + 1)

/-- Model of `_delete_all_blocks` (source lines 137-162): list the page's
children, then delete each one.  This capability exists but is dead code:
no tool path invokes it. -/
def deleteAllBlocks (listResponse : Except String (List (Option String)))
    (deleteRaises : Nat → Bool) (pageId : String) : Bool × List CallEvent :=
  match listResponse with
  | Except.error _ =>
    (false, [CallEvent.mk (GatewayCall.listChildren pageId) true])
  | Except.ok blocks =>
    (true, CallEvent.mk (GatewayCall.listChildren pageId) false ::
      deleteLoop deleteRaises blocks 0)

/-- Remote-call outcomes one tool invocation can observe. -/
structure Env where
  searchResponse : Except String (List PageResult)
  createResponse : Except String CreateResponse
  appendRaises : Nat → Bool
  notionParentId : Option String

/-- Tool result dictionaries: `{"status", "message", "page_id", "page_url"}`
on success, `{"error": ...}` on failure. -/
inductive ToolResult where
  | ok (status : String) (message : String) (pageId : String) (pageUrl : String)
  | error (errorMsg : String)
deriving DecidableEq, Repr

/-- ASCII single quote, written without an apostrophe literal. -/
def squote : String := String.singleton (Char.ofNat 39)

/-- Model of the `write_to_notion` tool (source lines 422-479): search by
title; on a hit, dispatch on `mode` (`"append"` uses
`_append_to_notion_page`, anything else — including the default
`"replace"` — uses `_update_notion_page`) and report `"appended"`; on a
miss, create the page and report `"created"`. -/
def writeToNotion (env : Env) (title : String) (content : String)
    (parentId : Option String) (mode : String) : ToolResult × List CallEvent :=
  let searchEvent := CallEvent.mk (GatewayCall.search title) (exceptRaised env.searchResponse)
  match searchNotionPage env.searchResponse title with
  | some existingPageId =>
    if mode = "append" then
      let result := appendToNotionPage env.appendRaises existingPageId content
      match result.1 with
      | OpResult.ok pid purl _ =>
        (ToolResult.ok "appended"
           ("Appended content to existing Notion page " ++ squote ++ title ++ squote) pid purl,
         searchEvent :: result.2)
      | OpResult.err e => (ToolResult.error e, searchEvent :: result.2)
    else
      let result := updateNotionPage env.appendRaises existingPageId title content
      match result.1 with
      | OpResult.ok pid purl _ =>
        (ToolResult.ok "appended"
           ("Appended content to existing Notion page " ++ squote ++ title ++ squote) pid purl,
         searchEvent :: result.2)
      | OpResult.err e => (ToolResult.error e, searchEvent :: result.2)
  | none =>
    let result := createNotionPage env.createResponse env.notionParentId title content parentId
    match result.1 with
    | OpResult.ok pid purl _ =>
      (ToolResult.ok "created" ("Created new Notion page " ++ squote ++ title ++ squote) pid purl,
       searchEvent :: result.2)
    | OpResult.err e => (ToolResult.error e, searchEvent :: result.2)

/-- Model of the `append_to_notion` tool (source lines 481-518): like
`write_to_notion` but always appending on a hit. -/
def appendToNotion (env : Env) (title : String) (content : String)
    (parentId : Option String) : ToolResult × List CallEvent :=
  let searchEvent := CallEvent.mk (GatewayCall.search title) (exceptRaised env.searchResponse)
  match searchNotionPage env.searchResponse title with
  | some existingPageId =>
    let result := appendToNotionPage env.appendRaises existingPageId content
    match result.1 with
    | OpResult.ok pid purl _ =>
      (ToolResult.ok "appended"
         ("Appended content to existing Notion page " ++ squote ++ title ++ squote) pid purl,
       searchEvent :: result.2)
    | OpResult.err e => (ToolResult.error e, searchEvent :: result.2)
  | none =>
    let result := createNotionPage env.createResponse env.notionParentId title content parentId
    match result.1 with
    | OpResult.ok pid purl _ =>
      (ToolResult.ok "created" ("Created new Notion page " ++ squote ++ title ++ squote) pid purl,
       searchEvent :: result.2)
    | OpResult.err e => (ToolResult.error e, searchEvent :: result.2)

/-- Children carried by an issued append call (`[]` for other calls). -/
def eventBlocks (ev : CallEvent) : List Block :=
  match ev.call with
  | GatewayCall.appendChildren _ children => children
  | _ => []

/-- Placeholder event used as the `getD` default when indexing traces. -/
def defaultEvent : CallEvent :=
  CallEvent.mk (GatewayCall.search "") false

example : contentToNotionBlocks "9. x" = [Block.numberedListItem "x"] := by decide
example : contentToNotionBlocks "10. x" = [Block.paragraph "10. x"] := by decide
example : contentToNotionBlocks "### a" = [Block.heading3 "a"] := by decide
example : contentToNotionBlocks "```\ncode\n```" = [Block.code "plain text" "code"] := by
  decide
example : contentToNotionBlocks "" = [] := by decide
example : contentToNotionBlocks "# t\n\n- b\nhi" =
    [Block.heading1 "t", Block.bulletedListItem "b", Block.paragraph "hi"] := by decide
example :
    (writeToNotion
      (Env.mk (Except.ok [PageResult.mk "pid-1" ["T"] []])
        (Except.ok (CreateResponse.mk (some "cid") (some "curl")))
        (fun _ => false) (some "parent")) "T" "hello" none "replace").1 =
    ToolResult.ok "appended"
      ("Appended content to existing Notion page " ++ squote ++ "T" ++ squote)
      "pid-1" "https://notion.so/pid1" := by decide

/-! Helper lemmas about the parser. -/

/-- Unfolding of the classification step with the `line` local inlined. -/
theorem parseLinesAux_cons_none (l : List Char) (rest : List (List Char)) :
    parseLinesAux none (l :: rest) =
      (if pyStrip l = [] then parseLinesAux none rest
       else if backtick3.isPrefixOf (pyStrip l) then
         parseLinesAux (some (fenceLanguage (pyStrip l), [])) rest
       else if heading1Marker.isPrefixOf (pyStrip l) then
         Block.heading1 (String.mk ((pyStrip l).drop 2)) :: parseLinesAux none rest
       else if heading2Marker.isPrefixOf (pyStrip l) then
         Block.heading2 (String.mk ((pyStrip l).drop 3)) :: parseLinesAux none rest
       else if heading3Marker.isPrefixOf (pyStrip l) then
         Block.heading3 (String.mk ((pyStrip l).drop 4)) :: parseLinesAux none rest
       else if bulletDash.isPrefixOf (pyStrip l) || bulletStar.isPrefixOf (pyStrip l) then
         Block.bulletedListItem (String.mk ((pyStrip l).drop 2)) :: parseLinesAux none rest
       else if isNumberedLine (pyStrip l) then
         match pyFind (pyStrip l) dotSpace with
         | some spaceIndex =>
           Block.numberedListItem (String.mk ((pyStrip l).drop (spaceIndex + 2))) ::
             parseLinesAux none rest
         | none => parseLinesAux none rest
       else
         Block.paragraph (String.mk (pyStrip l)) :: parseLinesAux none rest) := rfl

/-- Unfolding of the fence-collection step. -/
theorem parseLinesAux_cons_some (st : List Char × List (List Char)) (l : List Char)
    (rest : List (List Char)) :
    parseLinesAux (some st) (l :: rest) =
      (if backtick3.isPrefixOf (pyStrip l) then
         codeBlockOf st.1 st.2 :: parseLinesAux none rest
       else parseLinesAux (some (st.1, st.2 ++ [l])) rest) := rfl

theorem isPrefixOf_cons_elim {c : Char} {p s : List Char}
    (h : (c :: p).isPrefixOf s = true) : ∃ t, s = c :: t ∧ p.isPrefixOf t = true := by
  cases s with
  | nil => simp [List.isPrefixOf] at h
  | cons b bs =>
    simp only [List.isPrefixOf, Bool.and_eq_true, beq_iff_eq] at h
    exact ⟨bs, by rw [h.1], h.2⟩

theorem backtick3_ne_nil_target {s : List Char} (h : backtick3.isPrefixOf s = true) :
    s ≠ [] := by
  intro he
  subst he
  exact absurd h (by decide)

/-- Blank lines produce no block and are skipped (source lines 267-269). -/
theorem parseLinesAux_blank_skip (blanks ls : List (List Char))
    (hb : ∀ b ∈ blanks, pyStrip b = []) :
    parseLinesAux none (blanks ++ ls) = parseLinesAux none ls := by
  induction blanks with
  | nil => rfl
  | cons b bs ih =>
    have hbb : pyStrip b = [] := hb b (List.mem_cons_self b bs)
    have step : parseLinesAux none ((b :: bs) ++ ls) = parseLinesAux none (bs ++ ls) := by
      rw [List.cons_append, parseLinesAux_cons_none, if_pos hbb]
    rw [step]
    exact ih (fun x hx => hb x (List.mem_cons_of_mem b hx))

/-- Fence collection with a closing delimiter: body lines accumulate in
order, the closing fence line is consumed, and parsing resumes after it. -/
theorem parseLinesAux_code_closed (body : List (List Char))
    (hbody : ∀ l ∈ body, backtick3.isPrefixOf (pyStrip l) = false)
    (close : List Char) (hc : backtick3.isPrefixOf (pyStrip close) = true)
    (rest : List (List Char)) (lang : List Char) (acc : List (List Char)) :
    parseLinesAux (some (lang, acc)) (body ++ close :: rest) =
      codeBlockOf lang (acc ++ body) :: parseLinesAux none rest := by
  induction body generalizing acc with
  | nil =>
    rw [List.nil_append, parseLinesAux_cons_some, if_pos hc, List.append_nil]
  | cons l bs ih =>
    have hl : backtick3.isPrefixOf (pyStrip l) = false :=
      hbody l (List.mem_cons_self l bs)
    rw [List.cons_append, parseLinesAux_cons_some, if_neg (by simp [hl])]
    rw [ih (fun x hx => hbody x (List.mem_cons_of_mem l hx)) (acc ++ [l])]
    rw [List.append_assoc, List.singleton_append]

/-- Fence collection with no closing delimiter: the body accumulates to the
end of input and the code block is still emitted. -/
theorem parseLinesAux_code_open (body : List (List Char))
    (hbody : ∀ l ∈ body, backtick3.isPrefixOf (pyStrip l) = false)
    (lang : List Char) (acc : List (List Char)) :
    parseLinesAux (some (lang, acc)) body = [codeBlockOf lang (acc ++ body)] := by
  induction body generalizing acc with
  | nil => rw [List.append_nil]; rfl
  | cons l bs ih =>
    have hl : backtick3.isPrefixOf (pyStrip l) = false :=
      hbody l (List.mem_cons_self l bs)
    rw [parseLinesAux_cons_some, if_neg (by simp [hl])]
    rw [ih (fun x hx => hbody x (List.mem_cons_of_mem l hx)) (acc ++ [l])]
    rw [List.append_assoc, List.singleton_append]

/-- Opening a fence enters the collection state with the declared language. -/
theorem parseLinesAux_fence_open (f : List Char) (rest : List (List Char))
    (hf : backtick3.isPrefixOf (pyStrip f) = true) :
    parseLinesAux none (f :: rest) =
      parseLinesAux (some (fenceLanguage (pyStrip f), [])) rest := by
  rw [parseLinesAux_cons_none, if_neg (backtick3_ne_nil_target hf), if_pos hf]

/-! Helper lemmas about the batch loop. -/

theorem appendBatchEvents_length (appendRaises : Nat → Bool) (pageId : String)
    (blocks : List Block) :
    (appendBatchEvents appendRaises pageId blocks).length =
      (blocks.length + 99) / 100 := by
  simp [appendBatchEvents]

theorem appendBatchEvents_getD (appendRaises : Nat → Bool) (pageId : String)
    (blocks : List Block) (k : Nat)
    (hk : k < (blocks.length + 99) / 100) :
    (appendBatchEvents appendRaises pageId blocks).getD k defaultEvent =
      CallEvent.mk
        (GatewayCall.appendChildren pageId ((blocks.drop (k * 100)).take batchSize))
        (appendRaises k) := by
  have hk2 : k < (appendBatchEvents appendRaises pageId blocks).length := by
    rw [appendBatchEvents_length]; exact hk
  rw [List.getD_eq_getElem _ _ hk2]
  simp [appendBatchEvents]

theorem chunks_join : ∀ (k : Nat) (l : List Block), k = (l.length + 99) / 100 →
    ((List.range k).map (fun q => (l.drop (q * 100)).take batchSize)).flatten = l := by
  intro k
  induction k with
  | zero =>
    intro l hl
    have h0 : l.length = 0 := by omega
    rw [List.length_eq_zero.mp h0]
    simp
  | succ k ih =>
    intro l hl
    rw [List.range_succ_eq_map, List.map_cons, List.map_map, List.flatten_cons]
    have hfun : ((fun q => (l.drop (q * 100)).take batchSize) ∘ Nat.succ) =
        (fun q => ((l.drop 100).drop (q * 100)).take batchSize) := by
      funext q
      simp only [Function.comp]
      rw [List.drop_drop]
      congr 2
      omega
    rw [hfun, ih (l.drop 100) (by simp [List.length_drop]; omega)]
    rw [show (0 : Nat) * 100 = 0 from rfl, List.drop_zero,
      show batchSize = 100 from rfl, List.take_append_drop]

theorem appendBatchEvents_join (appendRaises : Nat → Bool) (pageId : String)
    (blocks : List Block) :
    ((appendBatchEvents appendRaises pageId blocks).map eventBlocks).flatten = blocks := by
  rw [appendBatchEvents, List.map_map]
  have hfun : (eventBlocks ∘ fun q =>
      CallEvent.mk
        (GatewayCall.appendChildren pageId ((blocks.drop (q * 100)).take batchSize))
        (appendRaises q)) =
      (fun q => (blocks.drop (q * 100)).take batchSize) := by
    funext q
    simp [Function.comp, eventBlocks]
  rw [hfun]
  exact chunks_join _ blocks rfl

theorem appendToNotionPage_snd (appendRaises : Nat → Bool) (pageId : String)
    (content : String) :
    (appendToNotionPage appendRaises pageId content).2 =
      appendBatchEvents appendRaises pageId (contentToNotionBlocks content) := by
  by_cases hb : (contentToNotionBlocks content).isEmpty
  · have hnil : contentToNotionBlocks content = [] := List.isEmpty_iff.mp hb
    simp [appendToNotionPage, hb, hnil, appendBatchEvents]
  · simp [appendToNotionPage, hb]

theorem updateNotionPage_eq_append (appendRaises : Nat → Bool) (pageId : String)
    (title : String) (content : String) :
    updateNotionPage appendRaises pageId title content =
      appendToNotionPage appendRaises pageId content := rfl

/-! Claim theorems. -/

set_option maxRecDepth 4000 in
/-- C2: for every non-empty list of n blocks appended to an existing page,
the batch loop of `_append_to_notion_page` / `_update_notion_page` issues
exactly `ceil(n/100)` append calls, in document order (their concatenation
restores the input), each carrying at most 100 blocks, every batch except
possibly the last carrying exactly 100; in particular 250 input blocks
produce exactly 3 append calls of sizes 100, 100, 50, in that order. -/
theorem batch_chunking_correct (appendRaises : Nat → Bool) (pageId : String)
    (blocks : List Block) (hne : blocks ≠ []) :
    (appendBatchEvents appendRaises pageId blocks).length =
      (blocks.length + 99) / 100 ∧
    (∀ ev ∈ appendBatchEvents appendRaises pageId blocks,
      ∃ children, ev.call = GatewayCall.appendChildren pageId children ∧
        children.length ≤ 100) ∧
    (∀ k, k + 1 < (appendBatchEvents appendRaises pageId blocks).length →
      ((appendBatchEvents appendRaises pageId blocks).getD k defaultEvent).call =
        GatewayCall.appendChildren pageId ((blocks.drop (k * 100)).take batchSize) ∧
      ((blocks.drop (k * 100)).take batchSize).length = 100) ∧
    ((appendBatchEvents appendRaises pageId blocks).map eventBlocks).flatten = blocks ∧
    (∀ (content : String) (title : String),
      (appendToNotionPage appendRaises pageId content).2 =
        appendBatchEvents appendRaises pageId (contentToNotionBlocks content) ∧
      (updateNotionPage appendRaises pageId title content).2 =
        appendBatchEvents appendRaises pageId (contentToNotionBlocks content)) ∧
    (appendBatchEvents appendRaises pageId
        (List.replicate 250 (Block.paragraph "x"))).map
      (fun ev => (eventBlocks ev).length) = [100, 100, 50] := by
  refine ⟨appendBatchEvents_length _ _ _, ?_, ?_, appendBatchEvents_join _ _ _, ?_, ?_⟩
  · intro ev hev
    rw [appendBatchEvents] at hev
    obtain ⟨q, _, rfl⟩ := List.mem_map.mp hev
    exact ⟨_, rfl, List.length_take_le _ _⟩
  · intro k hk
    rw [appendBatchEvents_length] at hk
    refine ⟨?_, ?_⟩
    · rw [appendBatchEvents_getD _ _ _ k (by omega)]
    · rw [List.length_take, List.length_drop]
      have : 100 * (k + 2) ≤ blocks.length + 99 := by
        have := (Nat.le_div_iff_mul_le (by norm_num)).mp hk
        omega
      simp only [batchSize]
      omega
  · intro content title
    exact ⟨appendToNotionPage_snd _ _ _, by
      rw [updateNotionPage_eq_append]; exact appendToNotionPage_snd _ _ _⟩
  · rw [appendBatchEvents, List.map_map]
    have hfun : ((fun ev => (eventBlocks ev).length) ∘ fun q =>
        CallEvent.mk
          (GatewayCall.appendChildren pageId
            (((List.replicate 250 (Block.paragraph "x")).drop (q * 100)).take batchSize))
          (appendRaises q)) =
        (fun q =>
          (((List.replicate 250 (Block.paragraph "x")).drop (q * 100)).take batchSize).length) := by
      funext q
      rfl
    rw [hfun]
    decide

/-- Witness for C2 at a concrete one-block input. -/
theorem batch_chunking_correct_witness :
    ([Block.paragraph "x"] ≠ ([] : List Block)) ∧
    (appendBatchEvents (fun _ => false) "p" [Block.paragraph "x"]).length =
      (([Block.paragraph "x"] : List Block).length + 99) / 100 :=
  ⟨by decide, (batch_chunking_correct (fun _ => false) "p" [Block.paragraph "x"]
    (by decide)).1⟩

/-- C3: in a batched append of three or more batches, failures of individual
append calls do not change which calls are issued (every subsequent batch is
still attempted) and the invocation still reports success with action
`"appended"`; in particular when the second call raises, the third call is
still issued with the third batch, and `write_to_notion` still reports
status `"appended"`. -/
theorem partial_batch_failure_tolerated (appendRaises : Nat → Bool)
    (pageId : String) (content : String)
    (h3 : 3 ≤ (appendToNotionPage appendRaises pageId content).2.length)
    (hf : appendRaises 1 = true) :
    ((appendToNotionPage appendRaises pageId content).2.map CallEvent.call =
      (appendToNotionPage (fun _ => false) pageId content).2.map CallEvent.call) ∧
    ((appendToNotionPage appendRaises pageId content).2.getD 1 defaultEvent).raised =
      true ∧
    ((appendToNotionPage appendRaises pageId content).2.getD 2 defaultEvent).call =
      GatewayCall.appendChildren pageId
        (((contentToNotionBlocks content).drop 200).take batchSize) ∧
    (appendToNotionPage appendRaises pageId content).1 =
      OpResult.ok pageId (synthesizedUrl pageId) "appended" ∧
    (∀ (env : Env) (title : String) (parentId : Option String),
      searchNotionPage env.searchResponse title = some pageId →
      env.appendRaises = appendRaises →
      (writeToNotion env title content parentId "append").1 =
        ToolResult.ok "appended"
          ("Appended content to existing Notion page " ++ squote ++ title ++ squote)
          pageId (synthesizedUrl pageId)) := by
  rw [appendToNotionPage_snd, appendBatchEvents_length] at h3
  refine ⟨?_, ?_, ?_, rfl, ?_⟩
  · rw [appendToNotionPage_snd, appendToNotionPage_snd]
    simp [appendBatchEvents, List.map_map, Function.comp]
  · rw [appendToNotionPage_snd, appendBatchEvents_getD _ _ _ 1 (by omega)]
    exact hf
  · rw [appendToNotionPage_snd, appendBatchEvents_getD _ _ _ 2 (by omega)]
  · intro env title parentId hfound hr
    simp [writeToNotion, hfound, hr, appendToNotionPage]

set_option maxRecDepth 40000 in
/-- Witness for C3: 201 one-character lines make three batches and the
second append call is set to raise. -/
theorem partial_batch_failure_tolerated_witness :
    3 ≤ (appendToNotionPage (fun k => k == 1) "p"
          (String.intercalate "\n" (List.replicate 201 "x"))).2.length ∧
    ((fun k => k == 1) 1 = true) ∧
    (appendToNotionPage (fun k => k == 1) "p"
        (String.intercalate "\n" (List.replicate 201 "x"))).1 =
      OpResult.ok "p" (synthesizedUrl "p") "appended" :=
  ⟨by decide, by decide,
    (partial_batch_failure_tolerated (fun k => k == 1) "p"
      (String.intercalate "\n" (List.replicate 201 "x")) (by decide)
      (by decide)).2.2.2.1⟩

/-- C4: the parser recognizes numbered-list prefixes only for the single
digits 1 through 9: each of `"1. x"` .. `"9. x"` yields exactly one
NumberedItem block with text `"x"`, while `"10. x"` and `"0. x"` each yield
exactly one Paragraph block carrying the full trimmed line. -/
theorem numbered_list_single_digit_boundary :
    ((List.range' 1 9).all (fun j =>
      decide (contentToNotionBlocks (toString j ++ ". x") =
        [Block.numberedListItem "x"])) = true) ∧
    contentToNotionBlocks "9. x" = [Block.numberedListItem "x"] ∧
    contentToNotionBlocks "10. x" = [Block.paragraph "10. x"] ∧
    contentToNotionBlocks "0. x" = [Block.paragraph "0. x"] :=
  ⟨by decide, by decide, by decide, by decide⟩

/-- C7: the parser is a total function by construction (it is defined by
structural recursion in this embedding, mirroring the single forward pass of
the source); on the empty string, on inputs whose lines are all blank after
trimming, and on an unterminated code fence it returns without failing, the
first two returning the empty block sequence. -/
theorem parser_total_on_degenerate_inputs :
    contentToNotionBlocks "" = [] ∧
    (∀ (ls : List (List Char)), (∀ l ∈ ls, pyStrip l = []) → parseLines ls = []) ∧
    (∀ (s : String), (∀ l ∈ pySplitNL s.toList, pyStrip l = []) →
      contentToNotionBlocks s = []) ∧
    contentToNotionBlocks "```" = [Block.code "plain text" ""] ∧
    contentToNotionBlocks "\n \n\t\n" = [] := by
  have blankAll : ∀ (ls : List (List Char)), (∀ l ∈ ls, pyStrip l = []) →
      parseLines ls = [] := by
    intro ls h
    have step := parseLinesAux_blank_skip ls [] h
    rw [List.append_nil] at step
    exact step
  exact ⟨by decide, blankAll, fun s h => blankAll (pySplitNL s.toList) h, by decide,
    by decide⟩

/-- Witness for C7 discharging the blank-lines hypothesis at a concrete
input. -/
theorem parser_total_on_degenerate_inputs_witness :
    (∀ l ∈ pySplitNL "\n \n".toList, pyStrip l = []) ∧
    contentToNotionBlocks "\n \n" = [] :=
  ⟨by decide, parser_total_on_degenerate_inputs.2.2.1 "\n \n" (by decide)⟩

theorem no_empty_paragraph_aux : ∀ (ls : List (List Char))
    (st : Option (List Char × List (List Char))),
    Block.paragraph "" ∉ parseLinesAux st ls := by
  intro ls
  induction ls with
  | nil =>
    intro st
    cases st with
    | none => simp [parseLinesAux]
    | some st => simp [parseLinesAux, codeBlockOf]
  | cons l rest ih =>
    intro st
    cases st with
    | some st =>
      by_cases hb : backtick3.isPrefixOf (pyStrip l) = true
      · rw [parseLinesAux_cons_some, if_pos hb]
        simp only [List.mem_cons, not_or]
        exact ⟨by simp [codeBlockOf], ih none⟩
      · rw [parseLinesAux_cons_some, if_neg hb]
        exact ih _
    | none =>
      rw [parseLinesAux_cons_none]
      by_cases h0 : pyStrip l = []
      · rw [if_pos h0]; exact ih none
      · rw [if_neg h0]
        by_cases hb : backtick3.isPrefixOf (pyStrip l) = true
        · rw [if_pos hb]; exact ih _
        · rw [if_neg hb]
          by_cases h1 : heading1Marker.isPrefixOf (pyStrip l) = true
          · rw [if_pos h1]
            simp only [List.mem_cons, not_or]
            exact ⟨by simp, ih none⟩
          · rw [if_neg h1]
            by_cases h2 : heading2Marker.isPrefixOf (pyStrip l) = true
            · rw [if_pos h2]
              simp only [List.mem_cons, not_or]
              exact ⟨by simp, ih none⟩
            · rw [if_neg h2]
              by_cases h3 : heading3Marker.isPrefixOf (pyStrip l) = true
              · rw [if_pos h3]
                simp only [List.mem_cons, not_or]
                exact ⟨by simp, ih none⟩
              · rw [if_neg h3]
                by_cases h4 : (bulletDash.isPrefixOf (pyStrip l) ||
                    bulletStar.isPrefixOf (pyStrip l)) = true
                · rw [if_pos h4]
                  simp only [List.mem_cons, not_or]
                  exact ⟨by simp, ih none⟩
                · rw [if_neg h4]
                  by_cases h5 : isNumberedLine (pyStrip l) = true
                  · rw [if_pos h5]
                    cases hfind : pyFind (pyStrip l) dotSpace with
                    | some si =>
                      simp only [List.mem_cons, not_or]
                      exact ⟨by simp, ih none⟩
                    | none => exact ih none
                  · rw [if_neg h5]
                    simp only [List.mem_cons, not_or]
                    refine ⟨?_, ih none⟩
                    intro hEq
                    injection hEq with h'
                    exact h0 ((congrArg String.data h').symm)

/-- C8: for every input string, the parsed block sequence contains no
Paragraph block with empty text: blank lines are skipped before
classification, so the paragraph branch only ever fires on a non-empty
trimmed line. -/
theorem parse_no_empty_paragraphs (s : String) :
    Block.paragraph "" ∉ contentToNotionBlocks s :=
  no_empty_paragraph_aux (pySplitNL s.toList) none

/-- Witness for C8 at a concrete input. -/
theorem parse_no_empty_paragraphs_witness :
    Block.paragraph "" ∉ contentToNotionBlocks "a\n\nb" :=
  parse_no_empty_paragraphs "a\n\nb"

/-- C5: for an input whose first non-blank line opens a triple-backtick
fence, the trimmed text after the marker becomes the code block's language
(empty defaulting to the literal tag `"plain text"`), subsequent lines are
accumulated verbatim and joined with newlines until a line whose trimmed
form starts with a fence (consumed) or end of input (unterminated fence
tolerated), and exactly one CodeBlock is emitted for the fence; in
particular the parse of a fenced `code` line yields one CodeBlock with
language `"plain text"` and text `"code"`, and an empty fence body yields a
CodeBlock with empty text rather than no block. -/
theorem code_fence_semantics :
    (∀ (blanks : List (List Char)), (∀ b ∈ blanks, pyStrip b = []) →
      ∀ (f : List Char), backtick3.isPrefixOf (pyStrip f) = true →
      ∀ (body : List (List Char)),
        (∀ l ∈ body, backtick3.isPrefixOf (pyStrip l) = false) →
      ∀ (close : List Char) (rest : List (List Char)),
        backtick3.isPrefixOf (pyStrip close) = true →
        parseLinesAux none (blanks ++ f :: (body ++ close :: rest)) =
          Block.code
            (String.mk (if fenceLanguage (pyStrip f) = [] then "plain text".toList
              else fenceLanguage (pyStrip f)))
            (String.mk (pyJoinNL body)) :: parseLinesAux none rest ∧
        parseLinesAux none (blanks ++ f :: body) =
          [Block.code
            (String.mk (if fenceLanguage (pyStrip f) = [] then "plain text".toList
              else fenceLanguage (pyStrip f)))
            (String.mk (pyJoinNL body))]) ∧
    contentToNotionBlocks "```\ncode\n```" = [Block.code "plain text" "code"] ∧
    contentToNotionBlocks "```\n```" = [Block.code "plain text" ""] := by
  refine ⟨?_, by decide, by decide⟩
  intro blanks hb f hf body hbody close rest hc
  constructor
  · rw [parseLinesAux_blank_skip blanks _ hb, parseLinesAux_fence_open f _ hf,
      parseLinesAux_code_closed body hbody close hc rest _ []]
    rfl
  · rw [parseLinesAux_blank_skip blanks _ hb, parseLinesAux_fence_open f _ hf,
      parseLinesAux_code_open body hbody _ []]
    rfl

/-- Witness for C5 at a concrete fenced input with a declared language. -/
theorem code_fence_semantics_witness :
    parseLinesAux none [[], "```py".toList, ['x'], "```".toList, ['h', 'i']] =
      [Block.code "py" "x", Block.paragraph "hi"] := by
  have h := (code_fence_semantics.1 [[]] (by decide) "```py".toList (by decide)
    [['x']] (by decide) "```".toList [['h', 'i']] (by decide)).1
  exact h

/-- C6: heading classification resolves the longest marker: a `###` line
parses as a level-3 heading and a `##` line as a level-2 heading, and in
general a line whose trimmed form begins with two (resp. three) hash
characters is never classified as a level-1 (resp. level-1 or level-2)
heading. -/
theorem heading_precedence :
    contentToNotionBlocks "### a" = [Block.heading3 "a"] ∧
    contentToNotionBlocks "## a" = [Block.heading2 "a"] ∧
    (∀ (l : List Char) (t : String), ("##".toList).isPrefixOf (pyStrip l) = true →
      Block.heading1 t ∉ parseLines [l]) ∧
    (∀ (l : List Char) (t : String), ("###".toList).isPrefixOf (pyStrip l) = true →
      Block.heading1 t ∉ parseLines [l] ∧ Block.heading2 t ∉ parseLines [l]) := by
  refine ⟨by decide, by decide, ?_, ?_⟩
  · intro l t h
    have h' : ('#' :: '#' :: []).isPrefixOf (pyStrip l) = true := h
    obtain ⟨u, hu, h2⟩ := isPrefixOf_cons_elim h'
    obtain ⟨v, hv, _⟩ := isPrefixOf_cons_elim h2
    have hs : pyStrip l = '#' :: '#' :: v := by rw [hu, hv]
    show Block.heading1 t ∉ parseLinesAux none [l]
    rw [parseLinesAux_cons_none, hs]
    rw [if_neg (by simp)]
    rw [if_neg (by simp [show backtick3.isPrefixOf ('#' :: '#' :: v) = false from rfl])]
    rw [if_neg (by
      simp [show heading1Marker.isPrefixOf ('#' :: '#' :: v) = false from rfl])]
    by_cases hsp : heading2Marker.isPrefixOf ('#' :: '#' :: v) = true
    · rw [if_pos hsp]; simp [parseLinesAux]
    · rw [if_neg hsp]
      by_cases hsp3 : heading3Marker.isPrefixOf ('#' :: '#' :: v) = true
      · rw [if_pos hsp3]; simp [parseLinesAux]
      · rw [if_neg hsp3]
        rw [if_neg (by
          simp [show (bulletDash.isPrefixOf ('#' :: '#' :: v) ||
            bulletStar.isPrefixOf ('#' :: '#' :: v)) = false from rfl])]
        rw [if_neg (by
          simp [show isNumberedLine ('#' :: '#' :: v) = false from rfl])]
        simp [parseLinesAux]
  · intro l t h
    have h' : ('#' :: '#' :: '#' :: []).isPrefixOf (pyStrip l) = true := h
    obtain ⟨u, hu, h2⟩ := isPrefixOf_cons_elim h'
    obtain ⟨v, hv, h3⟩ := isPrefixOf_cons_elim h2
    obtain ⟨w, hw, _⟩ := isPrefixOf_cons_elim h3
    have hs : pyStrip l = '#' :: '#' :: '#' :: w := by rw [hu, hv, hw]
    have core : ∀ (b : Block), (∀ (x : String), b ≠ Block.heading3 x) →
        (∀ (x : String), b ≠ Block.paragraph x) → b ∉ parseLinesAux none [l] := by
      intro b hb3 hbp
      rw [parseLinesAux_cons_none, hs]
      rw [if_neg (by simp)]
      rw [if_neg (by
        simp [show backtick3.isPrefixOf ('#' :: '#' :: '#' :: w) = false from rfl])]
      rw [if_neg (by
        simp [show heading1Marker.isPrefixOf ('#' :: '#' :: '#' :: w) = false from rfl])]
      rw [if_neg (by
        simp [show heading2Marker.isPrefixOf ('#' :: '#' :: '#' :: w) = false from rfl])]
      by_cases hsp3 : heading3Marker.isPrefixOf ('#' :: '#' :: '#' :: w) = true
      · rw [if_pos hsp3]
        simp only [List.mem_cons, not_or]
        exact ⟨hb3 _, by simp [parseLinesAux]⟩
      · rw [if_neg hsp3]
        rw [if_neg (by
          simp [show (bulletDash.isPrefixOf ('#' :: '#' :: '#' :: w) ||
            bulletStar.isPrefixOf ('#' :: '#' :: '#' :: w)) = false from rfl])]
        rw [if_neg (by
          simp [show isNumberedLine ('#' :: '#' :: '#' :: w) = false from rfl])]
        simp only [List.mem_cons, not_or]
        exact ⟨hbp _, by simp [parseLinesAux]⟩
    exact ⟨core (Block.heading1 t) (by simp) (by simp),
      core (Block.heading2 t) (by simp) (by simp)⟩

/-- Witness for C6 discharging the hash-prefix hypothesis at a concrete
line. -/
theorem heading_precedence_witness :
    ("##".toList).isPrefixOf (pyStrip "## a".toList) = true ∧
    Block.heading1 "a" ∉ parseLines ["## a".toList] :=
  ⟨by decide, heading_precedence.2.2.1 "## a".toList "a" (by decide)⟩

/-! Helper lemmas about the workflow. -/

theorem searchResponse_ok_of_found {resp : Except String (List PageResult)}
    {title pid : String} (h : searchNotionPage resp title = some pid) :
    exceptRaised resp = false := by
  cases resp with
  | error e => simp [searchNotionPage] at h
  | ok results => rfl

theorem appendBatchEvents_empty_guard (appendRaises : Nat → Bool) (pageId : String)
    (bs : List Block) :
    (if bs.isEmpty then [] else appendBatchEvents appendRaises pageId bs) =
      appendBatchEvents appendRaises pageId bs := by
  by_cases h : bs.isEmpty
  · rw [if_pos h, List.isEmpty_iff.mp h]
    simp [appendBatchEvents]
  · rw [if_neg h]

/-- C1: with an existing matching page, `write_to_notion` with `mode=replace`
and with `mode=append` produce the identical observable gateway interaction
(the same result and the same call trace: one search followed by the same
append batches), both report status `"appended"`, no delete or
list-children call is ever issued, and since every run of
`_delete_all_blocks` necessarily begins with a list-children call, the
delete-children capability is never invoked on any path of
`write_to_notion`. -/
theorem replace_mode_equals_append_mode (env : Env) (title content : String)
    (parentId : Option String) (pid : String)
    (hfound : searchNotionPage env.searchResponse title = some pid) :
    writeToNotion env title content parentId "replace" =
      writeToNotion env title content parentId "append" ∧
    (writeToNotion env title content parentId "replace").1 =
      ToolResult.ok "appended"
        ("Appended content to existing Notion page " ++ squote ++ title ++ squote)
        pid (synthesizedUrl pid) ∧
    (writeToNotion env title content parentId "replace").2 =
      CallEvent.mk (GatewayCall.search title) false ::
        appendBatchEvents env.appendRaises pid (contentToNotionBlocks content) ∧
    (∀ ev ∈ (writeToNotion env title content parentId "replace").2,
      ∀ blockId, ev.call ≠ GatewayCall.deleteBlock blockId ∧
        ev.call ≠ GatewayCall.listChildren blockId) ∧
    (∀ (listResponse : Except String (List (Option String)))
        (deleteRaises : Nat → Bool) (pageId2 : String),
      ∃ tail, (deleteAllBlocks listResponse deleteRaises pageId2).2 =
        CallEvent.mk (GatewayCall.listChildren pageId2) (exceptRaised listResponse) ::
          tail) := by
  have hraised := searchResponse_ok_of_found hfound
  have h3 : (writeToNotion env title content parentId "replace").2 =
      CallEvent.mk (GatewayCall.search title) false ::
        appendBatchEvents env.appendRaises pid (contentToNotionBlocks content) := by
    simp only [writeToNotion, hfound]
    simp [updateNotionPage, hraised, appendBatchEvents_empty_guard]
    intro h
    rw [h]
    simp [appendBatchEvents]
  refine ⟨?_, ?_, h3, ?_, ?_⟩
  · simp only [writeToNotion, hfound]
    rw [updateNotionPage_eq_append]
    simp
  · simp only [writeToNotion, hfound]
    simp [updateNotionPage]
  · intro ev hev blockId
    rw [h3] at hev
    rcases List.mem_cons.mp hev with hev1 | hev2
    · subst hev1
      exact ⟨by simp, by simp⟩
    · rw [appendBatchEvents] at hev2
      obtain ⟨q, _, rfl⟩ := List.mem_map.mp hev2
      exact ⟨by simp, by simp⟩
  · intro listResponse deleteRaises pageId2
    cases listResponse with
    | error e => exact ⟨[], rfl⟩
    | ok bs => exact ⟨deleteLoop deleteRaises bs 0, rfl⟩

/-- Witness for C1 with a concrete environment holding a matching page. -/
theorem replace_mode_equals_append_mode_witness :
    searchNotionPage
      (Env.mk (Except.ok [PageResult.mk "pid-1" ["T"] []])
        (Except.ok (CreateResponse.mk (some "cid") (some "curl")))
        (fun _ => false) (some "parent")).searchResponse "T" = some "pid-1" ∧
    writeToNotion
      (Env.mk (Except.ok [PageResult.mk "pid-1" ["T"] []])
        (Except.ok (CreateResponse.mk (some "cid") (some "curl")))
        (fun _ => false) (some "parent")) "T" "hello" none "replace" =
    writeToNotion
      (Env.mk (Except.ok [PageResult.mk "pid-1" ["T"] []])
        (Except.ok (CreateResponse.mk (some "cid") (some "curl")))
        (fun _ => false) (some "parent")) "T" "hello" none "append" :=
  ⟨by decide,
    (replace_mode_equals_append_mode
      (Env.mk (Except.ok [PageResult.mk "pid-1" ["T"] []])
        (Except.ok (CreateResponse.mk (some "cid") (some "curl")))
        (fun _ => false) (some "parent")) "T" "hello" none "pid-1" (by decide)).1⟩

/-- C9: if the title search raises, `_search_notion_page` returns `None`,
indistinguishable from a genuine no-match, so `write_to_notion` and
`append_to_notion` proceed down the create path (the trace shows exactly one
search and one create call) and, when the create call succeeds, report
status `"created"`; the only error result such an invocation can return is a
create error, so a remote search failure is never surfaced to the caller. -/
theorem search_failure_never_surfaced (env : Env) (e : String)
    (title content : String) (parentId : Option String) (mode : String)
    (herr : env.searchResponse = Except.error e) :
    searchNotionPage env.searchResponse title = none ∧
    (writeToNotion env title content parentId mode).1 =
      (writeToNotion (Env.mk (Except.ok []) env.createResponse env.appendRaises
        env.notionParentId) title content parentId mode).1 ∧
    (appendToNotion env title content parentId).1 =
      (appendToNotion (Env.mk (Except.ok []) env.createResponse env.appendRaises
        env.notionParentId) title content parentId).1 ∧
    (writeToNotion env title content parentId mode).2 =
      [CallEvent.mk (GatewayCall.search title) true,
       CallEvent.mk
         (GatewayCall.createPage (pyOrStr parentId env.notionParentId) title
           (contentToNotionBlocks content))
         (exceptRaised env.createResponse)] ∧
    (∀ r, env.createResponse = Except.ok r →
      (writeToNotion env title content parentId mode).1 =
        ToolResult.ok "created"
          ("Created new Notion page " ++ squote ++ title ++ squote)
          (r.id.getD "No ID available") (r.url.getD "No URL available") ∧
      (appendToNotion env title content parentId).1 =
        ToolResult.ok "created"
          ("Created new Notion page " ++ squote ++ title ++ squote)
          (r.id.getD "No ID available") (r.url.getD "No URL available")) ∧
    (∀ msg, (writeToNotion env title content parentId mode).1 = ToolResult.error msg →
      ∃ ce, env.createResponse = Except.error ce ∧
        msg = "Error creating Notion page: " ++ ce) := by
  have hnone : searchNotionPage env.searchResponse title = none := by
    rw [herr]; rfl
  have hnone2 : searchNotionPage (Except.ok ([] : List PageResult)) title = none := rfl
  refine ⟨hnone, ?_, ?_, ?_, ?_, ?_⟩
  · cases hc : env.createResponse with
    | error ce => simp [writeToNotion, hnone, hnone2, createNotionPage, hc]
    | ok r => simp [writeToNotion, hnone, hnone2, createNotionPage, hc]
  · cases hc : env.createResponse with
    | error ce => simp [appendToNotion, hnone, hnone2, createNotionPage, hc]
    | ok r => simp [appendToNotion, hnone, hnone2, createNotionPage, hc]
  · cases hc : env.createResponse with
    | error ce =>
      simp [writeToNotion, searchNotionPage, hnone, createNotionPage, hc, herr,
        exceptRaised]
    | ok r =>
      simp [writeToNotion, searchNotionPage, hnone, createNotionPage, hc, herr,
        exceptRaised]
  · intro r hc
    constructor
    · simp [writeToNotion, hnone, createNotionPage, hc]
    · simp [appendToNotion, hnone, createNotionPage, hc]
  · intro msg hmsg
    cases hc : env.createResponse with
    | error ce =>
      refine ⟨ce, rfl, ?_⟩
      rw [show (writeToNotion env title content parentId mode).1 =
        ToolResult.error ("Error creating Notion page: " ++ ce) from by
          simp [writeToNotion, hnone, createNotionPage, hc]] at hmsg
      injection hmsg with h
      exact h.symm
    | ok r =>
      rw [show (writeToNotion env title content parentId mode).1 =
        ToolResult.ok "created"
          ("Created new Notion page " ++ squote ++ title ++ squote)
          (r.id.getD "No ID available") (r.url.getD "No URL available") from by
          simp [writeToNotion, hnone, createNotionPage, hc]] at hmsg
      exact absurd hmsg (by simp)

/-- Witness for C9 with a concretely failing search. -/
theorem search_failure_never_surfaced_witness :
    (Env.mk (Except.error "boom")
      (Except.ok (CreateResponse.mk (some "cid") (some "curl")))
      (fun _ => false) none).searchResponse = Except.error "boom" ∧
    searchNotionPage
      (Env.mk (Except.error "boom")
        (Except.ok (CreateResponse.mk (some "cid") (some "curl")))
        (fun _ => false) none).searchResponse "T" = none :=
  ⟨rfl,
    (search_failure_never_surfaced
      (Env.mk (Except.error "boom")
        (Except.ok (CreateResponse.mk (some "cid") (some "curl")))
        (fun _ => false) none) "boom" "T" "c" none "replace" rfl).1⟩

/-- C10: every successful append result (both modes, existing page) carries
a page url synthesized deterministically from the page id as
`"https://notion.so/"` followed by the id with all dashes removed, never a
store-provided url; only the create path returns the url field of the
store's create response. -/
theorem page_url_synthesized (env : Env) (title content : String)
    (parentId : Option String) (pid : String)
    (hfound : searchNotionPage env.searchResponse title = some pid) :
    (∀ mode, (writeToNotion env title content parentId mode).1 =
      ToolResult.ok "appended"
        ("Appended content to existing Notion page " ++ squote ++ title ++ squote)
        pid ("https://notion.so/" ++ String.mk (pyReplaceDash pid.toList))) ∧
    (appendToNotion env title content parentId).1 =
      ToolResult.ok "appended"
        ("Appended content to existing Notion page " ++ squote ++ title ++ squote)
        pid ("https://notion.so/" ++ String.mk (pyReplaceDash pid.toList)) ∧
    (∀ (env2 : Env) (t2 c2 : String) (p2 : Option String) (m2 : String)
        (r : CreateResponse),
      searchNotionPage env2.searchResponse t2 = none →
      env2.createResponse = Except.ok r →
      (writeToNotion env2 t2 c2 p2 m2).1 =
        ToolResult.ok "created"
          ("Created new Notion page " ++ squote ++ t2 ++ squote)
          (r.id.getD "No ID available") (r.url.getD "No URL available")) := by
  refine ⟨?_, ?_, ?_⟩
  · intro mode
    by_cases hm : mode = "append"
    · simp [writeToNotion, hfound, hm, appendToNotionPage, synthesizedUrl]
    · simp [writeToNotion, hfound, hm, updateNotionPage, synthesizedUrl]
  · simp [appendToNotion, hfound, appendToNotionPage, synthesizedUrl]
  · intro env2 t2 c2 p2 m2 r hn hc
    simp [writeToNotion, hn, createNotionPage, hc]

/-- Witness for C10 with a concrete environment holding a matching page. -/
theorem page_url_synthesized_witness :
    searchNotionPage
      (Env.mk (Except.ok [PageResult.mk "pid-1" ["T"] []])
        (Except.ok (CreateResponse.mk (some "cid") (some "curl")))
        (fun _ => false) (some "parent")).searchResponse "T" = some "pid-1" ∧
    (writeToNotion
        (Env.mk (Except.ok [PageResult.mk "pid-1" ["T"] []])
          (Except.ok (CreateResponse.mk (some "cid") (some "curl")))
          (fun _ => false) (some "parent")) "T" "hi" none "replace").1 =
      ToolResult.ok "appended"
        ("Appended content to existing Notion page " ++ squote ++ "T" ++ squote)
        "pid-1" ("https://notion.so/" ++ String.mk (pyReplaceDash "pid-1".toList)) :=
  ⟨by decide,
    (page_url_synthesized
      (Env.mk (Except.ok [PageResult.mk "pid-1" ["T"] []])
        (Except.ok (CreateResponse.mk (some "cid") (some "curl")))
        (fun _ => false) (some "parent")) "T" "hi" none "pid-1" (by decide)).1 "replace"⟩
